import Mathlib

/-!
Verification of the transcript-sanitizer and HTTP pipeline logic of
`src/main.py` (a FastAPI service with two endpoints, `/transcribe` and
`/generate-report`).

The sanitizer `clean_transcript` is a chain of Python `re.sub` calls; each
is embedded here as an executable function on `List Char`, following the
leftmost, non-overlapping, greedy semantics of `re.sub`.  Machine-level
character classes of the embedding: Python's `\d` for `str` patterns is
the set of Unicode decimal digits (category Nd), modelled by `pyIsDigit`
below from the Nd code-point ranges, and `\s` is the standard Python
whitespace set, modelled by `pyWs` below (the characters for which
`str.isspace` holds).
-/

/-- The Python whitespace class (`\s` for `str` patterns / `str.isspace`). -/
def pyWs (c : Char) : Bool :=
  c == ' ' || c == '\t' || c == '\n' || c == '\x0b' || c == '\x0c' || c == '\r' ||
  c == '\x1c' || c == '\x1d' || c == '\x1e' || c == '\x1f' || c == '\x85' || c == '\xa0' ||
  c == '\u1680' || ('\u2000' ≤ c && c ≤ '\u200a') || c == '\u2028' || c == '\u2029' ||
  c == '\u202f' || c == '\u205f' || c == '\u3000'

/-- The code-point ranges (inclusive) of the Unicode decimal digits
(category Nd) beyond ASCII, the character set of Python's `\d` for
`str` patterns. -/
def ndRanges : List (Nat × Nat) :=
  [(0x660, 0x669), (0x6f0, 0x6f9), (0x7c0, 0x7c9), (0x966, 0x96f),
   (0x9e6, 0x9ef), (0xa66, 0xa6f), (0xae6, 0xaef), (0xb66, 0xb6f),
   (0xbe6, 0xbef), (0xc66, 0xc6f), (0xce6, 0xcef), (0xd66, 0xd6f),
   (0xde6, 0xdef), (0xe50, 0xe59), (0xed0, 0xed9), (0xf20, 0xf29),
   (0x1040, 0x1049), (0x1090, 0x1099), (0x17e0, 0x17e9), (0x1810, 0x1819),
   (0x1946, 0x194f), (0x19d0, 0x19d9), (0x1a80, 0x1a89), (0x1a90, 0x1a99),
   (0x1b50, 0x1b59), (0x1bb0, 0x1bb9), (0x1c40, 0x1c49), (0x1c50, 0x1c59),
   (0xa620, 0xa629), (0xa8d0, 0xa8d9), (0xa900, 0xa909), (0xa9d0, 0xa9d9),
   (0xa9f0, 0xa9f9), (0xaa50, 0xaa59), (0xabf0, 0xabf9), (0xff10, 0xff19),
   (0x104a0, 0x104a9), (0x10d30, 0x10d39), (0x11066, 0x1106f), (0x110f0, 0x110f9),
   (0x11136, 0x1113f), (0x111d0, 0x111d9), (0x112f0, 0x112f9), (0x11450, 0x11459),
   (0x114d0, 0x114d9), (0x11650, 0x11659), (0x116c0, 0x116c9), (0x11730, 0x11739),
   (0x118e0, 0x118e9), (0x11950, 0x11959), (0x11c50, 0x11c59), (0x11d50, 0x11d59),
   (0x11da0, 0x11da9), (0x16a60, 0x16a69), (0x16ac0, 0x16ac9), (0x16b50, 0x16b59),
   (0x1d7ce, 0x1d7ff), (0x1e140, 0x1e149), (0x1e2f0, 0x1e2f9), (0x1e950, 0x1e959),
   (0x1fbf0, 0x1fbf9)]

/-- The Python digit class (`\d` for `str` patterns): every Unicode
decimal digit - the ASCII digits plus the other Nd ranges. -/
def pyIsDigit (c : Char) : Bool :=
  c.isDigit || ndRanges.any (fun r => r.1 ≤ c.toNat && c.toNat ≤ r.2)


/-- The character class of `main.py` line 42: the regex
`[-–—_=*#{}<>[\]\"\'`|]` (hyphen, en-dash, em-dash, underscore, equals,
asterisk, hash, braces, angle brackets, square brackets, double quote,
single quote, backtick, pipe).  The quote, apostrophe and backtick
characters are written via their code points (34, 39, 96). -/
def isMark (c : Char) : Bool :=
  c == '-' || c == '–' || c == '—' || c == '_' || c == '=' || c == '*' || c == '#' ||
  c == '{' || c == '}' || c == '<' || c == '>' || c == '[' || c == ']' ||
  c == Char.ofNat 34 || c == Char.ofNat 39 || c == Char.ofNat 96 || c == '|'

/-- Embeds `main.py` line 42: `re.sub(r"[-–—_=*#{}<>[\]\"\'`|]", "", text)`:
delete every character of the class. -/
def removeMarks (l : List Char) : List Char :=
  l.filter (fun c => !(isMark c))

/-- Replace every maximal run of two or more characters satisfying `p`
by the single character `r`, keeping isolated `p`-characters as they are.
This is the effect of `re.sub(pat{2,}, r, text)` with its leftmost,
non-overlapping, greedy matching: each maximal run of length at least two
is one greedy match and is replaced once.  Implemented as a right fold:
a `p`-character followed (in the already-collapsed tail) by a
`p`-character merges into a single `r`. -/
def collapseRuns (p : Char → Bool) (r : Char) : List Char → List Char
  | [] => []
  | c :: rest =>
    let out := collapseRuns p r rest
    if p c then
      match out with
      | [] => [c]
      | d :: t => if p d then r :: t else c :: out
    else c :: out

/-- Embeds `main.py` line 43: `re.sub(r"\s{2,}", " ", text)`. -/
def collapseWs (l : List Char) : List Char := collapseRuns pyWs ' ' l

/-- Embeds `main.py` line 44: `re.sub(r"\n{2,}", "\n", text)`. -/
def collapseNl (l : List Char) : List Char := collapseRuns (fun c => c == '\n') '\n' l

/-- Consume one leading backslash if present (the `\\?` part of the
line-41 pattern). -/
def dropOptBackslash : List Char → List Char
  | '\\' :: r => r
  | r => r

/-- Fuel-driven scanner for `main.py` line 41:
`re.sub(r"\\an\d+\\?.*?", "", text)`.  A match is a backslash, the
letters `an`, one or more digits (greedy), and an optional backslash; the
trailing lazy `.*?` matches the empty string, so it contributes nothing.
At each position: if a match starts here, drop it and continue after it;
otherwise emit the character and continue at the next position.  The fuel
(always instantiated with the length of the list) only forces structural
recursion; it never runs out. -/
def stripAnGo : Nat → List Char → List Char
  | 0, l => l
  | fuel + 1, l =>
    match l with
    | '\\' :: 'a' :: 'n' :: r2 =>
      if (r2.takeWhile pyIsDigit).length = 0 then
        '\\' :: stripAnGo fuel ('a' :: 'n' :: r2)
      else
        stripAnGo fuel (dropOptBackslash (r2.dropWhile pyIsDigit))
    | c :: rest => c :: stripAnGo fuel rest
    | [] => []

/-- Embeds `main.py` line 41 (see `stripAnGo`). -/
def stripAnTags (l : List Char) : List Char := stripAnGo l.length l

/-- Try to match the line-45 pattern `\d{2,}[:.]\d{2,}[:.]\d{2,}` at the
head of `l`; on success return the rest of the list after the match.
Each `\d{2,}` takes the maximal digit run from its position (backtracking
cannot help: giving back a digit leaves a digit where `[:.]` or the end
of a shorter run is required). -/
def matchTs (l : List Char) : Option (List Char) :=
  if (l.takeWhile pyIsDigit).length < 2 then none
  else
    match l.dropWhile pyIsDigit with
    | c1 :: r2 =>
      if c1 == ':' || c1 == '.' then
        if (r2.takeWhile pyIsDigit).length < 2 then none
        else
          match r2.dropWhile pyIsDigit with
          | c2 :: r4 =>
            if c2 == ':' || c2 == '.' then
              if (r4.takeWhile pyIsDigit).length < 2 then none
              else some (r4.dropWhile pyIsDigit)
            else none
          | [] => none
      else none
    | [] => none

/-- Fuel-driven scanner for `main.py` line 45:
`re.sub(r"\d{2,}[:.]\d{2,}[:.]\d{2,}", "", text)`: at each position, if a
timestamp-shaped match starts here, delete it and continue after it,
otherwise emit the character and move on. -/
def removeTsGo : Nat → List Char → List Char
  | 0, l => l
  | fuel + 1, l =>
    match l with
    | [] => []
    | c :: rest =>
      match matchTs (c :: rest) with
      | some r => removeTsGo fuel r
      | none => c :: removeTsGo fuel rest

/-- Embeds `main.py` line 45 (see `removeTsGo`). -/
def removeTs (l : List Char) : List Char := removeTsGo l.length l

/-- Python `str.strip()`: drop leading and trailing whitespace. -/
def pyStrip (l : List Char) : List Char :=
  ((l.dropWhile pyWs).reverse.dropWhile pyWs).reverse

/-- Python `str.strip()` on `String`. -/
def pyStripStr (s : String) : String := String.mk (pyStrip s.data)

/-- Embeds `main.py` lines 40-46, `clean_transcript` at the character level: the
five `re.sub` steps in source order followed by `str.strip()`. -/
def cleanList (l : List Char) : List Char :=
  pyStrip (removeTs (collapseNl (collapseWs (removeMarks (stripAnTags l)))))

/-- Embeds `main.py` lines 40-46, `clean_transcript` (see `cleanList`). -/
def clean_transcript (s : String) : String :=
  String.mk (cleanList s.data)


/-!
## The HTTP layer and the two pipelines

JSON values, request bodies and responses are modelled concretely; the
external collaborators (Google Drive metadata/content, Whisper, the chat
completion API) are modelled as environments recording the outcome of
each outbound call for the current request.  The local filesystem (the
process temporary directory) is a list of paths threaded through the
transcription pipeline.
-/

/-- A JSON value, as far as the two handlers inspect one. -/
inductive JVal where
  | null
  | bool (b : Bool)
  | num (n : Int)
  | str (s : String)
  deriving DecidableEq

/-- Python truth-value test (`if not x`): `None`, `False`, `0` and the
empty string are falsy. -/
def falsy : JVal → Bool
  | .null => true
  | .bool b => !b
  | .num n => n == 0
  | .str s => s == ""

/-- Python `data.get(k)`: `None` when the key is absent. -/
def pyGet (kvs : List (String × JVal)) (k : String) : JVal :=
  (List.lookup k kvs).getD .null

/-- Python `data.get(k, d)`: the default only when the key is absent. -/
def pyGetD (kvs : List (String × JVal)) (k : String) (d : JVal) : JVal :=
  (List.lookup k kvs).getD d

/-- A parsed request body.  `malformed` models a body that
`await request.json()` rejects (the raised error's text is carried);
`nondict` models a JSON body that is not an object, on which `.get`
raises an `AttributeError` (text carried). -/
inductive Body where
  | malformed (msg : String)
  | nondict (msg : String)
  | dict (kvs : List (String × JVal))

/-- An HTTP response: status code and JSON object body. -/
structure Response where
  status : Nat
  content : List (String × JVal)
  deriving DecidableEq

/-- Builds the `JSONResponse` with the given status code and an `error` field. -/
def errorResponse (code : Nat) (msg : String) : Response :=
  ⟨code, [("error", .str msg)]⟩

/-- The local temporary directory, as the list of paths present. -/
abbrev FS := List String

deriving instance DecidableEq for Except

/-- Models `open(p, "wb")` plus `write`: create the file, overwriting an existing
one (membership in the model). -/
def fsWrite (p : String) (fs : FS) : FS :=
  if p ∈ fs then fs else p :: fs

/-- Per-request outcomes of the transcription pipeline's collaborators. -/
structure TEnv where
  /-- Outcome of credential refresh + `files().get(...).execute()`:
  the file's display name, or the text of the raised error. -/
  metadataName : Except String String
  /-- `response.status_code` of the content download. -/
  downloadStatus : Nat
  /-- `response.text` of the content download. -/
  downloadText : String
  /-- Content bytes of the download (abstracted to a string). -/
  downloadContent : String
  /-- Outcome of `client.audio.transcriptions.create(...)`: the raw
  transcript text, or the text of the raised error. -/
  stt : Except String String
  deriving DecidableEq

/-- Python `os.path.splitext(s)[0]` (module `posixpath`): split off the
extension at the last dot, provided that dot lies after the last path
separator and at least one non-dot character stands between the start of
the basename and that dot. -/
def splitextRoot (s : String) : String :=
  let l := s.data
  let sepIndex : Int := match (l.reverse.findIdx? (· == '/')) with
    | none => -1
    | some i => (l.length : Int) - 1 - (i : Int)
  let dotIndex : Int := match (l.reverse.findIdx? (· == '.')) with
    | none => -1
    | some i => (l.length : Int) - 1 - (i : Int)
  if sepIndex < dotIndex then
    if (((l.take dotIndex.toNat).drop (sepIndex + 1).toNat).any (fun c => !(c == '.'))) then
      String.mk (l.take dotIndex.toNat)
    else s
  else s


/-- Embeds `main.py` lines 48-70, `download_mp3_from_drive`: resolve the display
name (any credential or metadata failure propagates), check the download
status (non-200 raises `Exception` carrying the status code and body and
writes nothing), else write `<tempdir>/<root of name>.mp3` and return the
path.  Returns the written path and the updated filesystem. -/
def download_mp3_from_drive (env : TEnv) (fileId : JVal) (fs : FS) :
    Except String (String × FS) :=
  match env.metadataName with
  | .error e => .error e
  | .ok nm =>
    let fileName := splitextRoot nm
    if env.downloadStatus ≠ 200 then
      .error ("Failed to download MP3: " ++ toString env.downloadStatus ++ " - " ++ env.downloadText)
    else
      let mp3Path := "/tmp/" ++ fileName ++ ".mp3"
      .ok (mp3Path, fsWrite mp3Path fs)

/-- Embeds `main.py` lines 72-81, `transcribe_audio`: open the file (missing
file raises), run speech-to-text (failure propagates), sanitize the
result. -/
def transcribe_audio (env : TEnv) (mp3Path : String) (fs : FS) : Except String String :=
  if mp3Path ∈ fs then
    match env.stt with
    | .error e => .error e
    | .ok raw => .ok (clean_transcript raw)
  else .error ("FileNotFoundError: " ++ mp3Path)

/-- Embeds `main.py` lines 98-114, the `/transcribe` handler: body parsing
failures are caught by the blanket `except` (500); a falsy `file_id`
yields 400; a download failure yields 500 with the filesystem unchanged;
a transcription failure yields 500 with the downloaded file still
present (`os.remove` on line 108 is skipped); on success the file is
removed and the stripped transcript is returned with 200. -/
def transcribe_endpoint (env : TEnv) (req : Body) (fs : FS) : Response × FS :=
  match req with
  | .malformed msg => (errorResponse 500 msg, fs)
  | .nondict msg => (errorResponse 500 msg, fs)
  | .dict kvs =>
    let fileId := pyGet kvs "file_id"
    if falsy fileId then (errorResponse 400 "Missing file_id", fs)
    else
      match download_mp3_from_drive env fileId fs with
      | .error e => (errorResponse 500 e, fs)
      | .ok (mp3Path, fs1) =>
        match transcribe_audio env mp3Path fs1 with
        | .error e => (errorResponse 500 e, fs1)
        | .ok transcript =>
          (⟨200, [("transcript", .str (pyStripStr transcript))]⟩, fs1.erase mp3Path)

/-- Per-request outcome of the chat-completion collaborator: given the
messages (role, content) sent, the first completion's content or the
text of the raised error. -/
structure REnv where
  chat : List (String × String) → Except String String

/-- The messages list built on `main.py` lines 88-91: the fixed system
persona message, then one user message carrying the full instruction
block. -/
def llm_messages (fullInput : String) : List (String × String) :=
  [("system", "You are an expert HR interview evaluator."), ("user", fullInput)]

/-- Embeds `main.py` line 85: `prompt + "\n\nTranscript:\n" + transcript`.
Python `+` concatenates only when both operands are strings; any other
operand raises a `TypeError` (text abbreviated, quotes elided). -/
def pyConcat (prompt transcript : JVal) : Except String String :=
  match prompt with
  | .str p =>
    match transcript with
    | .str t => .ok (p ++ "\n\nTranscript:\n" ++ t)
    | _ => .error "TypeError: can only concatenate str to str"
  | _ => .error "TypeError: unsupported operand type for +"

/-- Embeds `main.py` lines 83-94, `generate_llm_report`: build the instruction
block (a `TypeError` propagates), send the two messages, strip the first
completion's content. -/
def generate_llm_report (env : REnv) (prompt transcript : JVal) : Except String String :=
  match pyConcat prompt transcript with
  | .error e => .error e
  | .ok fullInput =>
    match env.chat (llm_messages fullInput) with
    | .error e => .error e
    | .ok content => .ok (pyStripStr content)

/-- The default prompt of `main.py` line 120. -/
def defaultPrompt : String := "Evaluate the following interview transcript."

/-- Embeds `main.py` lines 116-131, the `/generate-report` handler: body parsing
failures are caught by the blanket `except` (500); the default prompt is
substituted only when the `prompt` key is absent; a falsy `transcript`
yields 400; any `generate_llm_report` failure yields 500; otherwise 200
with the report. -/
def generate_report_endpoint (env : REnv) (req : Body) : Response :=
  match req with
  | .malformed msg => errorResponse 500 msg
  | .nondict msg => errorResponse 500 msg
  | .dict kvs =>
    let prompt := pyGetD kvs "prompt" (.str defaultPrompt)
    let transcript := pyGet kvs "transcript"
    if falsy transcript then errorResponse 400 "Missing transcript"
    else
      match generate_llm_report env prompt transcript with
      | .error e => errorResponse 500 e
      | .ok report => ⟨200, [("report", .str report)]⟩

/-- No two adjacent characters of `l` both satisfy `p`.  The output of a
`collapseRuns` pass has this shape. -/
def NoRun (p : Char → Bool) (l : List Char) : Prop :=
  List.Chain' (fun a b => p a = false ∨ p b = false) l

/-- A structurally recursive decision procedure for `NoRun`, so that
`decide` can evaluate it on concrete lists. -/
def decNoRun (p : Char → Bool) : (l : List Char) → Decidable (NoRun p l)
  | [] => isTrue List.chain'_nil
  | [_] => isTrue (List.chain'_singleton _)
  | c :: d :: rest =>
    match decNoRun p (d :: rest) with
    | isTrue h =>
      if hpd : p c = false ∨ p d = false then
        isTrue (List.chain'_cons.mpr ⟨hpd, h⟩)
      else isFalse (fun hc => hpd (List.chain'_cons.mp hc).1)
    | isFalse h => isFalse (fun hc => h (List.chain'_cons.mp hc).2)

instance (p : Char → Bool) (l : List Char) : Decidable (NoRun p l) :=
  decNoRun p l

/-! ## Lemmas about the character classes -/

/-- ASCII digits are Python digits. -/
theorem isDigit_pyIsDigit {c : Char} (h : c.isDigit = true) : pyIsDigit c = true := by
  simp [pyIsDigit, h]

/-- Fidelity of the digit class beyond ASCII: exactly as in Python, a
timestamp written with Arabic-Indic digits is removed by the sanitizer
(leaving a double space), so a second application still differs from the
first; such strings contain a `pyIsDigit` character though no ASCII
digit. -/
theorem clean_transcript_unicode_digits :
    clean_transcript "a ٠٠:١١:٢٢ b" = "a  b" ∧
    clean_transcript (clean_transcript "a ٠٠:١١:٢٢ b") = "a b" ∧
    pyIsDigit (Char.ofNat 0x660) = true :=
  ⟨by decide, by decide, by decide⟩

/-! ## Lemmas about the sanitizer steps -/

theorem collapseRuns_cons_neg {p : Char → Bool} {r a : Char} {rest : List Char}
    (hp : p a = false) :
    collapseRuns p r (a :: rest) = a :: collapseRuns p r rest := by
  simp [collapseRuns, hp]

theorem collapseRuns_cons_pos_nil {p : Char → Bool} {r a : Char} {rest : List Char}
    (hp : p a = true) (h : collapseRuns p r rest = []) :
    collapseRuns p r (a :: rest) = [a] := by
  simp [collapseRuns, hp, h]

theorem collapseRuns_cons_pos_pos {p : Char → Bool} {r a d : Char} {rest t : List Char}
    (hp : p a = true) (h : collapseRuns p r rest = d :: t) (hd : p d = true) :
    collapseRuns p r (a :: rest) = r :: t := by
  simp [collapseRuns, hp, h, hd]

theorem collapseRuns_cons_pos_neg {p : Char → Bool} {r a d : Char} {rest t : List Char}
    (hp : p a = true) (h : collapseRuns p r rest = d :: t) (hd : p d = false) :
    collapseRuns p r (a :: rest) = a :: d :: t := by
  simp [collapseRuns, hp, h, hd]

/-- A collapse pass leaves no two adjacent characters of the collapsed
class. -/
theorem collapseRuns_noRun (p : Char → Bool) (r : Char) (l : List Char) :
    NoRun p (collapseRuns p r l) := by
  induction l with
  | nil => simp [collapseRuns, NoRun]
  | cons a rest ih =>
    cases hp : p a with
    | false =>
      rw [collapseRuns_cons_neg hp]
      unfold NoRun at ih ⊢
      rcases hout : collapseRuns p r rest with _ | ⟨d, t⟩
      · simp
      · rw [hout] at ih
        exact List.chain'_cons.mpr ⟨Or.inl hp, ih⟩
    | true =>
      rcases hout : collapseRuns p r rest with _ | ⟨d, t⟩
      · rw [collapseRuns_cons_pos_nil hp hout]
        simp [NoRun]
      · rw [hout] at ih
        cases hd : p d with
        | true =>
          rw [collapseRuns_cons_pos_pos hp hout hd]
          unfold NoRun at ih ⊢
          rcases t with _ | ⟨e, t'⟩
          · simp
          · have he : p d = false ∨ p e = false := (List.chain'_cons.mp ih).1
            have he' : p e = false := by
              cases he with
              | inl h' => rw [hd] at h'; cases h'
              | inr h' => exact h'
            exact List.chain'_cons.mpr ⟨Or.inr he', (List.chain'_cons.mp ih).2⟩
        | false =>
          rw [collapseRuns_cons_pos_neg hp hout hd]
          unfold NoRun at ih ⊢
          exact List.chain'_cons.mpr ⟨Or.inr hd, ih⟩

/-- A collapse pass is the identity on a list with no adjacent pair of
the collapsed class. -/
theorem collapseRuns_eq_self {p : Char → Bool} {r : Char} {l : List Char}
    (h : NoRun p l) : collapseRuns p r l = l := by
  induction l with
  | nil => rfl
  | cons a rest ih =>
    have hrest : NoRun p rest := (List.chain'_cons'.mp h).2
    have heq : collapseRuns p r rest = rest := ih hrest
    cases hp : p a with
    | false => rw [collapseRuns_cons_neg hp, heq]
    | true =>
      rcases rest with _ | ⟨d, t⟩
      · exact collapseRuns_cons_pos_nil hp rfl
      · have had : p a = false ∨ p d = false := (List.chain'_cons.mp h).1
        have hd : p d = false := by
          cases had with
          | inl h' => rw [hp] at h'; cases h'
          | inr h' => exact h'
        exact collapseRuns_cons_pos_neg hp heq hd

/-- Every character of a collapsed list is a character of the input or
the replacement character. -/
theorem collapseRuns_mem (p : Char → Bool) (r : Char) (l : List Char) :
    ∀ c ∈ collapseRuns p r l, c ∈ l ∨ c = r := by
  induction l with
  | nil => intro c h; simp [collapseRuns] at h
  | cons a rest ih =>
    intro c h
    cases hp : p a with
    | false =>
      rw [collapseRuns_cons_neg hp] at h
      rcases List.mem_cons.mp h with h' | h'
      · exact Or.inl (by simp [h'])
      · rcases ih c h' with h'' | h''
        · exact Or.inl (List.mem_cons_of_mem _ h'')
        · exact Or.inr h''
    | true =>
      rcases hout : collapseRuns p r rest with _ | ⟨d, t⟩
      · rw [collapseRuns_cons_pos_nil hp hout] at h
        simp only [List.mem_singleton] at h
        exact Or.inl (by simp [h])
      · cases hd : p d with
        | true =>
          rw [collapseRuns_cons_pos_pos hp hout hd] at h
          rcases List.mem_cons.mp h with h' | h'
          · exact Or.inr h'
          · have hmem : c ∈ collapseRuns p r rest := by
              rw [hout]; exact List.mem_cons_of_mem _ h'
            rcases ih c hmem with h'' | h''
            · exact Or.inl (List.mem_cons_of_mem _ h'')
            · exact Or.inr h''
        | false =>
          rw [collapseRuns_cons_pos_neg hp hout hd] at h
          rcases List.mem_cons.mp h with h' | h'
          · exact Or.inl (by simp [h'])
          · have hmem : c ∈ collapseRuns p r rest := by rw [hout]; exact h'
            rcases ih c hmem with h'' | h''
            · exact Or.inl (List.mem_cons_of_mem _ h'')
            · exact Or.inr h''

theorem dropOptBackslash_sublist (l : List Char) : List.Sublist (dropOptBackslash l) l := by
  unfold dropOptBackslash
  split
  · exact List.sublist_cons_self _ _
  · exact List.Sublist.refl _

/-- The tag-stripping scan only deletes characters. -/
theorem stripAnGo_sublist : ∀ (fuel : Nat) (l : List Char), List.Sublist (stripAnGo fuel l) l := by
  intro fuel
  induction fuel with
  | zero => intro l; exact List.Sublist.refl _
  | succ fuel ih =>
    intro l
    unfold stripAnGo
    split
    · split
      · exact List.Sublist.cons₂ _ (ih _)
      · rename_i r2 hne
        have hX : List.Sublist (dropOptBackslash (r2.dropWhile pyIsDigit)) r2 :=
          (dropOptBackslash_sublist _).trans (List.dropWhile_sublist _)
        have hr2 : List.Sublist r2 ('\\' :: 'a' :: 'n' :: r2) :=
          List.Sublist.cons '\\' (List.Sublist.cons 'a' (List.sublist_cons_self 'n' r2))
        exact (ih _).trans (hX.trans hr2)
    · exact List.Sublist.cons₂ _ (ih _)
    · exact List.Sublist.refl _

theorem stripAnTags_sublist (l : List Char) : List.Sublist (stripAnTags l) l :=
  stripAnGo_sublist l.length l

/-- A successful timestamp match consumes a prefix: the rest is a
sublist. -/
theorem matchTs_sublist {l r : List Char} (h : matchTs l = some r) : List.Sublist r l := by
  unfold matchTs at h
  split at h
  · cases h
  · split at h
    · rename_i c1 r2 heq1
      split at h
      · split at h
        · cases h
        · split at h
          · rename_i c2 r4 heq2
            split at h
            · split at h
              · cases h
              · have hr : r = r4.dropWhile pyIsDigit := (Option.some.injEq _ _).mp h.symm
                subst hr
                have h4 : List.Sublist (r4.dropWhile pyIsDigit) r4 := List.dropWhile_sublist _
                have h4' : List.Sublist r4 (r2.dropWhile pyIsDigit) := by
                  rw [heq2]; exact List.sublist_cons_self _ _
                have h2 : List.Sublist r2 (l.dropWhile pyIsDigit) := by
                  rw [heq1]; exact List.sublist_cons_self _ _
                exact h4.trans (h4'.trans ((List.dropWhile_sublist _).trans
                  (h2.trans (List.dropWhile_sublist _))))
            · cases h
          · cases h
      · cases h
    · cases h

/-- The timestamp-removal scan only deletes characters. -/
theorem removeTsGo_sublist : ∀ (fuel : Nat) (l : List Char), List.Sublist (removeTsGo fuel l) l := by
  intro fuel
  induction fuel with
  | zero => intro l; exact List.Sublist.refl _
  | succ fuel ih =>
    intro l
    unfold removeTsGo
    split
    · exact List.Sublist.refl _
    · split
      · rename_i c rest _ r hm
        exact (ih r).trans (matchTs_sublist hm)
      · exact List.Sublist.cons₂ _ (ih _)

theorem removeTs_sublist (l : List Char) : List.Sublist (removeTs l) l :=
  removeTsGo_sublist l.length l

theorem pyStrip_sublist (l : List Char) : List.Sublist (pyStrip l) l := by
  have h1 : List.Sublist ((l.dropWhile pyWs).reverse.dropWhile pyWs) (l.dropWhile pyWs).reverse :=
    List.dropWhile_sublist _
  have h2 : List.Sublist (pyStrip l) (l.dropWhile pyWs).reverse.reverse := h1.reverse
  rw [List.reverse_reverse] at h2
  exact h2.trans (List.dropWhile_sublist _)

theorem removeMarks_sublist (l : List Char) : List.Sublist (removeMarks l) l :=
  List.filter_sublist _

/-- Characters surviving `removeMarks` are not in the removed class. -/
theorem removeMarks_noMark {l : List Char} : ∀ c ∈ removeMarks l, isMark c = false := by
  intro c h
  have := List.of_mem_filter h
  simpa using this

/-- `removeMarks` is the identity on mark-free text. -/
theorem removeMarks_eq_self {l : List Char} (h : ∀ c ∈ l, isMark c = false) :
    removeMarks l = l :=
  List.filter_eq_self.mpr (fun a ha => by simp [h a ha])

/-- The tag-stripping scan is the identity on digit-free text (the
pattern requires at least one digit). -/
theorem stripAnGo_eq_self_of_noDigit :
    ∀ (fuel : Nat) (l : List Char), (∀ c ∈ l, pyIsDigit c = false) → stripAnGo fuel l = l := by
  intro fuel
  induction fuel with
  | zero => intro l _; rfl
  | succ fuel ih =>
    intro l h
    unfold stripAnGo
    split
    · rename_i r2
      have htw : r2.takeWhile pyIsDigit = [] := by
        cases r2 with
        | nil => rfl
        | cons b r =>
          rw [List.takeWhile_cons_of_neg]
          simp only [h b (by simp), Bool.false_eq_true, not_false_eq_true]
      rw [if_pos (by rw [htw]; rfl)]
      have : stripAnGo fuel ('a' :: 'n' :: r2) = 'a' :: 'n' :: r2 := by
        apply ih
        intro c hc
        exact h c (by simpa using Or.inr (by simpa using hc))
      rw [this]
    · rename_i c rest hne
      rw [ih rest (fun d hd => h d (List.mem_cons_of_mem _ hd))]
    · rfl

/-- A timestamp match cannot start at a non-digit character. -/
theorem matchTs_none_of_head {c : Char} {rest : List Char} (hc : pyIsDigit c = false) :
    matchTs (c :: rest) = none := by
  unfold matchTs
  rw [List.takeWhile_cons_of_neg (by simp [hc])]
  rfl

/-- The timestamp-removal scan is the identity on digit-free text. -/
theorem removeTsGo_eq_self_of_noDigit :
    ∀ (fuel : Nat) (l : List Char), (∀ c ∈ l, pyIsDigit c = false) → removeTsGo fuel l = l := by
  intro fuel
  induction fuel with
  | zero => intro l _; rfl
  | succ fuel ih =>
    intro l h
    unfold removeTsGo
    split
    · rfl
    · rename_i c rest
      rw [matchTs_none_of_head (h c (by simp))]
      rw [ih rest (fun d hd => h d (List.mem_cons_of_mem _ hd))]

theorem noRun_dropWhile (p q : Char → Bool) (l : List Char) (h : NoRun p l) :
    NoRun p (l.dropWhile q) := by
  unfold NoRun at h ⊢
  rw [← List.takeWhile_append_dropWhile q l] at h
  exact (List.chain'_append.mp h).2.1

theorem noRun_reverse {p : Char → Bool} {l : List Char} (h : NoRun p l) :
    NoRun p l.reverse := by
  unfold NoRun at h ⊢
  rw [List.chain'_reverse]
  exact h.imp (fun a b hab => hab.symm)

theorem pyStrip_noRun {l : List Char} (h : NoRun pyWs l) : NoRun pyWs (pyStrip l) :=
  noRun_reverse (noRun_dropWhile _ _ _ (noRun_reverse (noRun_dropWhile _ _ _ h)))

/-- Newlines are Python whitespace, so a list with no adjacent whitespace
pair has no adjacent newline pair. -/
theorem noRun_nl_of_noRun_ws {l : List Char} (h : NoRun pyWs l) :
    NoRun (fun c => c == '\n') l := by
  unfold NoRun at h ⊢
  refine h.imp (fun a b hab => ?_)
  cases hab with
  | inl ha =>
    left
    cases hx : (a == '\n') with
    | false => simpa using hx
    | true =>
      have : a = '\n' := by simpa using hx
      subst this
      simp [pyWs] at ha
  | inr hb =>
    right
    cases hx : (b == '\n') with
    | false => simpa using hx
    | true =>
      have : b = '\n' := by simpa using hx
      subst this
      simp [pyWs] at hb

theorem head?_dropWhile_ws {x : List Char} {c : Char}
    (h : (x.dropWhile pyWs).head? = some c) : pyWs c = false := by
  have hd := List.head?_dropWhile_not pyWs x
  rw [h] at hd
  exact hd

theorem dropWhile_ws_eq_self {x : List Char}
    (h : ∀ c, x.head? = some c → pyWs c = false) : x.dropWhile pyWs = x := by
  cases x with
  | nil => rfl
  | cons a r =>
    rw [List.dropWhile_cons_of_neg]
    simp [h a rfl]

/-- The head of a stripped list is not whitespace. -/
theorem pyStrip_head {l : List Char} {c : Char} (h : (pyStrip l).head? = some c) :
    pyWs c = false := by
  unfold pyStrip at h
  rw [List.head?_reverse] at h
  have hY : ((List.dropWhile pyWs l).reverse).getLast? = some c := by
    have hpre : List.takeWhile pyWs ((List.dropWhile pyWs l).reverse)
        ++ List.dropWhile pyWs ((List.dropWhile pyWs l).reverse)
        = (List.dropWhile pyWs l).reverse := List.takeWhile_append_dropWhile pyWs _
    calc ((List.dropWhile pyWs l).reverse).getLast?
        = (List.takeWhile pyWs ((List.dropWhile pyWs l).reverse)
            ++ List.dropWhile pyWs ((List.dropWhile pyWs l).reverse)).getLast? := by
          rw [hpre]
      _ = some c := by rw [List.getLast?_append, h]; rfl
  rw [List.getLast?_reverse] at hY
  exact head?_dropWhile_ws hY

/-- The last character of a stripped list is not whitespace. -/
theorem pyStrip_getLast {l : List Char} {c : Char} (h : (pyStrip l).getLast? = some c) :
    pyWs c = false := by
  unfold pyStrip at h
  rw [List.getLast?_reverse] at h
  exact head?_dropWhile_ws h

/-- Python `strip` is idempotent. -/
theorem pyStrip_idem (l : List Char) : pyStrip (pyStrip l) = pyStrip l := by
  have h1 : (pyStrip l).dropWhile pyWs = pyStrip l :=
    dropWhile_ws_eq_self (fun c hc => pyStrip_head hc)
  have h2 : (pyStrip l).reverse.dropWhile pyWs = (pyStrip l).reverse := by
    apply dropWhile_ws_eq_self
    intro c hc
    rw [List.head?_reverse] at hc
    exact pyStrip_getLast hc
  show ((((pyStrip l).dropWhile pyWs).reverse.dropWhile pyWs)).reverse = pyStrip l
  rw [h1, h2, List.reverse_reverse]

theorem dropOptBackslash_length_le (l : List Char) :
    (dropOptBackslash l).length ≤ l.length :=
  (dropOptBackslash_sublist l).length_le

/-- Enough fuel makes one more unit of fuel irrelevant. -/
theorem stripAnGo_succ : ∀ (fuel : Nat) (l : List Char), l.length ≤ fuel →
    stripAnGo (fuel + 1) l = stripAnGo fuel l := by
  intro fuel
  induction fuel with
  | zero =>
    intro l hl
    have : l = [] := List.length_eq_zero.mp (Nat.le_zero.mp hl)
    subst this
    rfl
  | succ fuel ih =>
    intro l hl
    unfold stripAnGo
    split
    · rename_i r2
      by_cases hc : (r2.takeWhile pyIsDigit).length = 0
      · rw [if_pos hc, if_pos hc]
        have hlen : ('a' :: 'n' :: r2).length ≤ fuel := by
          simp only [List.length_cons] at hl ⊢
          omega
        rw [ih _ hlen]
      · rw [if_neg hc, if_neg hc]
        apply ih
        have h1 := dropOptBackslash_length_le (r2.dropWhile pyIsDigit)
        have h2 := (List.dropWhile_sublist (l := r2) pyIsDigit).length_le
        simp only [List.length_cons] at hl
        omega
    · rename_i c rest hne
      rw [ih rest (by simp only [List.length_cons] at hl; omega)]
    · rfl

theorem stripAnGo_add : ∀ (k : Nat) (l : List Char),
    stripAnGo (l.length + k) l = stripAnTags l := by
  intro k
  induction k with
  | zero => intro l; rfl
  | succ k ih =>
    intro l
    have hs : l.length + (k + 1) = (l.length + k) + 1 := rfl
    rw [hs, stripAnGo_succ _ _ (by omega), ih]

/-- Any sufficient fuel computes `stripAnTags`. -/
theorem stripAnGo_eq_of_le {fuel : Nat} {l : List Char} (h : l.length ≤ fuel) :
    stripAnGo fuel l = stripAnTags l := by
  obtain ⟨k, rfl⟩ : ∃ k, fuel = l.length + k := ⟨fuel - l.length, by omega⟩
  exact stripAnGo_add k l

/-- What one `\anN\` match removes: the tag `\an`, its digits, and the
optional closing backslash - nothing after that.  The scan then resumes
on `rest`. -/
theorem stripAnTags_tag (ds rest : List Char) (h1 : ds ≠ [])
    (h2 : ∀ c ∈ ds, pyIsDigit c = true) :
    stripAnTags ('\\' :: 'a' :: 'n' :: (ds ++ '\\' :: rest)) = stripAnTags rest := by
  have htw : (ds ++ '\\' :: rest).takeWhile pyIsDigit = ds := by
    rw [List.takeWhile_append_of_pos h2, List.takeWhile_cons_of_neg (by decide)]
    simp
  have hdw : (ds ++ '\\' :: rest).dropWhile pyIsDigit = '\\' :: rest := by
    rw [List.dropWhile_append_of_pos h2, List.dropWhile_cons_of_neg (by decide)]
  have hlen : ('\\' :: 'a' :: 'n' :: (ds ++ '\\' :: rest)).length
      = (ds.length + rest.length + 3) + 1 := by
    simp only [List.length_cons, List.length_append]
    omega
  unfold stripAnTags
  rw [hlen]
  show (if ((ds ++ '\\' :: rest).takeWhile pyIsDigit).length = 0 then
      '\\' :: stripAnGo (ds.length + rest.length + 3) ('a' :: 'n' :: (ds ++ '\\' :: rest))
    else
      stripAnGo (ds.length + rest.length + 3)
        (dropOptBackslash ((ds ++ '\\' :: rest).dropWhile pyIsDigit)))
    = stripAnTags rest
  rw [htw, hdw]
  rw [if_neg (by simpa using h1)]
  show stripAnGo (ds.length + rest.length + 3) rest = stripAnTags rest
  exact stripAnGo_eq_of_le (by omega)

theorem stripAnTags_eq_self_of_noDigit {l : List Char}
    (h : ∀ c ∈ l, pyIsDigit c = false) : stripAnTags l = l :=
  stripAnGo_eq_self_of_noDigit _ _ h

theorem removeTs_eq_self_of_noDigit {l : List Char}
    (h : ∀ c ∈ l, pyIsDigit c = false) : removeTs l = l :=
  removeTsGo_eq_self_of_noDigit _ _ h

/-- The sanitizer pipeline is idempotent on digit-free character lists:
without digits neither the `\anN\` pattern nor the timestamp pattern can
match, and the remaining passes stabilise after one application. -/
theorem cleanList_idem_of_noDigit {l : List Char}
    (h : ∀ c ∈ l, pyIsDigit c = false) : cleanList (cleanList l) = cleanList l := by
  have h1 : stripAnTags l = l := stripAnTags_eq_self_of_noDigit h
  have hznd : ∀ c ∈ removeMarks l, pyIsDigit c = false :=
    fun c hc => h c ((removeMarks_sublist l).subset hc)
  have hwchain : NoRun pyWs (collapseWs (removeMarks l)) := collapseRuns_noRun _ _ _
  have hwnd : ∀ c ∈ collapseWs (removeMarks l), pyIsDigit c = false := by
    intro c hc
    rcases collapseRuns_mem _ _ _ c hc with h' | h'
    · exact hznd c h'
    · subst h'; decide
  have hwnm : ∀ c ∈ collapseWs (removeMarks l), isMark c = false := by
    intro c hc
    rcases collapseRuns_mem _ _ _ c hc with h' | h'
    · exact removeMarks_noMark c h'
    · subst h'; decide
  have hnl : collapseNl (collapseWs (removeMarks l)) = collapseWs (removeMarks l) :=
    collapseRuns_eq_self (noRun_nl_of_noRun_ws hwchain)
  have hts : removeTs (collapseWs (removeMarks l)) = collapseWs (removeMarks l) :=
    removeTs_eq_self_of_noDigit hwnd
  have hclean : cleanList l = pyStrip (collapseWs (removeMarks l)) := by
    unfold cleanList
    rw [h1, hnl, hts]
  have hychain : NoRun pyWs (pyStrip (collapseWs (removeMarks l))) := pyStrip_noRun hwchain
  have hynd : ∀ c ∈ pyStrip (collapseWs (removeMarks l)), pyIsDigit c = false :=
    fun c hc => hwnd c ((pyStrip_sublist _).subset hc)
  have hynm : ∀ c ∈ pyStrip (collapseWs (removeMarks l)), isMark c = false :=
    fun c hc => hwnm c ((pyStrip_sublist _).subset hc)
  have g3 : collapseWs (pyStrip (collapseWs (removeMarks l)))
      = pyStrip (collapseWs (removeMarks l)) := collapseRuns_eq_self hychain
  have g4 : collapseNl (pyStrip (collapseWs (removeMarks l)))
      = pyStrip (collapseWs (removeMarks l)) :=
    collapseRuns_eq_self (noRun_nl_of_noRun_ws hychain)
  rw [hclean]
  unfold cleanList
  rw [stripAnTags_eq_self_of_noDigit hynd, removeMarks_eq_self hynm, g3, g4,
    removeTs_eq_self_of_noDigit hynd, pyStrip_idem]

/-! ## Claims -/

/-- Claim C1, counterexample: the sanitizer is not idempotent.  On
`"a 00:11:22 b"` the whitespace-collapse pass leaves single spaces on
both sides of the timestamp; removing the timestamp then puts two spaces
next to each other, and a second application collapses them. -/
theorem c1_not_idempotent :
    clean_transcript (clean_transcript "a 00:11:22 b") ≠ clean_transcript "a 00:11:22 b" := by
  decide

/-- Claim C1, amended: the sanitizer is idempotent on every string that
contains no Unicode decimal digit (`pyIsDigit`, the character class of
the Python `\d` used by the tag and timestamp patterns): then neither
the `\anN\` pattern nor the timestamp pattern can match, and one
application reaches a fixed point. -/
theorem c1_idempotent_of_noDigit (s : String)
    (h : ∀ c ∈ s.data, pyIsDigit c = false) :
    clean_transcript (clean_transcript s) = clean_transcript s := by
  show String.mk (cleanList (String.mk (cleanList s.data)).data) = String.mk (cleanList s.data)
  have hd : (String.mk (cleanList s.data)).data = cleanList s.data := rfl
  rw [hd, cleanList_idem_of_noDigit h]

theorem c1_idempotent_witness :
    (∀ c ∈ "hello  world.".data, pyIsDigit c = false) ∧
    clean_transcript (clean_transcript "hello  world.") = clean_transcript "hello  world." :=
  ⟨by decide, c1_idempotent_of_noDigit "hello  world." (by decide)⟩

/-- Claim C2, counterexample: on `"a\n\nb 00:11:22 c"` the sanitizer returns
`"a b  c"`: the newline run was collapsed by the whitespace pass into a
single space (not a newline: no newline survives), and the timestamp
removal reintroduced a run of two spaces into the final output. -/
theorem c2_runs_counterexample :
    clean_transcript "a\n\nb 00:11:22 c" = "a b  c" ∧
    ¬ NoRun (fun c => c == ' ') (clean_transcript "a\n\nb 00:11:22 c").data ∧
    '\n' ∉ (clean_transcript "a\n\nb 00:11:22 c").data :=
  ⟨by decide, by decide, by decide⟩

/-- Claim C2, amended: directly after the two collapse passes (lines 43-44) no
two adjacent characters are whitespace - in particular no run of two or
more spaces and no run of two or more newlines survives at that point -
and the newline pass of line 44 is a no-op, because the whitespace pass
of line 43 has already replaced every whitespace run (newline runs
included) by a single space.  The later timestamp removal may
reintroduce adjacent spaces or newlines into the final output. -/
theorem c2_collapse_noRun (l : List Char) :
    NoRun pyWs (collapseWs l) ∧ collapseNl (collapseWs l) = collapseWs l :=
  ⟨collapseRuns_noRun _ _ _,
   collapseRuns_eq_self (noRun_nl_of_noRun_ws (collapseRuns_noRun _ _ _))⟩

/-- Claim C5, counterexample: the first transformation does not remove trailing
annotation content after a `\anN\` tag: the lazy `.*?` at the end of the
line-41 pattern matches the empty string.  On input `"\an8\world"` the
trailing text `world` survives in full (here it even equals the
output). -/
theorem c5_trailing_kept :
    clean_transcript "\\an8\\world" = "world" ∧
    List.IsInfix "world".data (clean_transcript "\\an8\\world").data :=
  ⟨by decide, by decide⟩

/-- Claim C5, amended: the first transformation removes exactly the tag itself -
the backslash, `an`, the digit run, and an optional closing backslash -
and resumes scanning right after it, leaving any trailing annotation
content in place. -/
theorem c5_tag_removed (ds rest : List Char) (h1 : ds ≠ [])
    (h2 : ∀ c ∈ ds, c.isDigit = true) :
    stripAnTags ('\\' :: 'a' :: 'n' :: (ds ++ '\\' :: rest)) = stripAnTags rest :=
  stripAnTags_tag ds rest h1 (fun c hc => isDigit_pyIsDigit (h2 c hc))

theorem c5_tag_removed_witness :
    (['8'] ≠ ([] : List Char)) ∧ (∀ c ∈ ['8'], Char.isDigit c = true) ∧
    stripAnTags ('\\' :: 'a' :: 'n' :: (['8'] ++ '\\' :: "note".data)) = stripAnTags "note".data :=
  ⟨by decide, by decide, c5_tag_removed ['8'] "note".data (by decide) (by decide)⟩

/-- Claim C8: no character of the line-42 punctuation class (hyphen, en-dash,
em-dash, underscore, equals, asterisk, hash, braces, angle brackets,
square brackets, double quote, single quote, backtick, pipe) occurs in
the sanitizer's output, for any input: line 42 deletes them all, and the
later passes only introduce a space or a newline. -/
theorem c8_marks_removed (s : String) (c : Char)
    (h : c ∈ (clean_transcript s).data) : isMark c = false := by
  have h0 : c ∈ cleanList s.data := h
  unfold cleanList at h0
  have h1 : c ∈ removeTs (collapseNl (collapseWs (removeMarks (stripAnTags s.data)))) :=
    (pyStrip_sublist _).subset h0
  have h2 : c ∈ collapseNl (collapseWs (removeMarks (stripAnTags s.data))) :=
    (removeTs_sublist _).subset h1
  rcases collapseRuns_mem _ _ _ c h2 with h3 | h3
  · rcases collapseRuns_mem _ _ _ c h3 with h4 | h4
    · exact removeMarks_noMark c h4
    · subst h4; decide
  · subst h3; decide

theorem c8_marks_removed_witness :
    ('H' ∈ (clean_transcript "Hi - there").data) ∧ isMark 'H' = false :=
  ⟨by decide, c8_marks_removed "Hi - there" 'H' (by decide)⟩

/-- Claim C4: the instruction block sent as the user message is exactly the
prompt, two newlines, the literal label `Transcript:`, one newline, and
the transcript; on the spec's concrete inputs it is exactly
`"Rate 1-5\n\nTranscript:\nGood answers."`; and a body without a
`prompt` key makes the handler use the fixed default instruction
string. -/
theorem c4_prompt_assembly (p t : String) (kvs : List (String × JVal))
    (hnp : List.lookup "prompt" kvs = none) :
    pyConcat (.str p) (.str t) = .ok (p ++ "\n\nTranscript:\n" ++ t) ∧
    llm_messages (p ++ "\n\nTranscript:\n" ++ t) =
      [("system", "You are an expert HR interview evaluator."),
       ("user", p ++ "\n\nTranscript:\n" ++ t)] ∧
    pyConcat (.str "Rate 1-5") (.str "Good answers.")
      = .ok "Rate 1-5\n\nTranscript:\nGood answers." ∧
    pyGetD kvs "prompt" (.str defaultPrompt) = .str defaultPrompt := by
  refine ⟨rfl, rfl, by decide, ?_⟩
  unfold pyGetD
  rw [hnp]
  rfl

theorem c4_prompt_assembly_witness :
    (List.lookup "prompt" [("transcript", JVal.str "x")] = none) ∧
    (pyConcat (.str "Rate 1-5") (.str "Good answers.")
        = .ok ("Rate 1-5" ++ "\n\nTranscript:\n" ++ "Good answers.") ∧
      llm_messages ("Rate 1-5" ++ "\n\nTranscript:\n" ++ "Good answers.") =
        [("system", "You are an expert HR interview evaluator."),
         ("user", "Rate 1-5" ++ "\n\nTranscript:\n" ++ "Good answers.")] ∧
      pyConcat (.str "Rate 1-5") (.str "Good answers.")
        = .ok "Rate 1-5\n\nTranscript:\nGood answers." ∧
      pyGetD [("transcript", JVal.str "x")] "prompt" (.str defaultPrompt)
        = .str defaultPrompt) :=
  ⟨by decide,
   c4_prompt_assembly "Rate 1-5" "Good answers." [("transcript", JVal.str "x")] (by decide)⟩

/-- Claim C6: when the metadata lookup succeeds but the content download
returns a non-200 status, `download_mp3_from_drive` raises an error
whose text carries the upstream status code and body, nothing is written
to the filesystem, and the `/transcribe` handler turns it into a 500
response whose `error` field contains the status code. -/
theorem c6_download_error (env : TEnv) (kvs : List (String × JVal)) (fs : FS)
    (nm : String)
    (hmeta : env.metadataName = .ok nm)
    (hst : env.downloadStatus ≠ 200)
    (hid : falsy (pyGet kvs "file_id") = false) :
    download_mp3_from_drive env (pyGet kvs "file_id") fs =
      .error ("Failed to download MP3: " ++ toString env.downloadStatus
        ++ " - " ++ env.downloadText) ∧
    transcribe_endpoint env (.dict kvs) fs =
      (errorResponse 500 ("Failed to download MP3: " ++ toString env.downloadStatus
        ++ " - " ++ env.downloadText), fs) ∧
    List.IsInfix (toString env.downloadStatus).data
      ("Failed to download MP3: " ++ toString env.downloadStatus
        ++ " - " ++ env.downloadText).data := by
  have hdl : download_mp3_from_drive env (pyGet kvs "file_id") fs =
      .error ("Failed to download MP3: " ++ toString env.downloadStatus
        ++ " - " ++ env.downloadText) := by
    simp only [download_mp3_from_drive]
    rw [hmeta]
    simp only [if_pos hst]
  refine ⟨hdl, ?_, ?_⟩
  · simp only [transcribe_endpoint]
    rw [if_neg (by simp [hid]), hdl]
  · refine ⟨"Failed to download MP3: ".data, (" - " ++ env.downloadText).data, ?_⟩
    simp only [String.data_append, List.append_assoc]

theorem c6_download_error_witness :
    ((⟨.ok "talk", 403, "Forbidden", "bts", .ok ""⟩ : TEnv).metadataName = .ok "talk") ∧
    ((⟨.ok "talk", 403, "Forbidden", "bts", .ok ""⟩ : TEnv).downloadStatus ≠ 200) ∧
    (falsy (pyGet [("file_id", JVal.str "f1")] "file_id") = false) ∧
    transcribe_endpoint (⟨.ok "talk", 403, "Forbidden", "bts", .ok ""⟩ : TEnv)
        (.dict [("file_id", JVal.str "f1")]) [] =
      (errorResponse 500 ("Failed to download MP3: "
        ++ toString (⟨.ok "talk", 403, "Forbidden", "bts", .ok ""⟩ : TEnv).downloadStatus
        ++ " - " ++ (⟨.ok "talk", 403, "Forbidden", "bts", .ok ""⟩ : TEnv).downloadText), []) :=
  ⟨by decide, by decide, by decide,
   (c6_download_error (⟨.ok "talk", 403, "Forbidden", "bts", .ok ""⟩ : TEnv)
     [("file_id", JVal.str "f1")] [] "talk" rfl (by decide) (by decide)).2.1⟩

/-- Claim C7: a `/transcribe` dict body whose `file_id` is missing or falsy
gets 400 `Missing file_id`, and a `/generate-report` dict body whose
`transcript` is missing or falsy (the empty string included) gets 400
`Missing transcript` - in both cases for every collaborator environment
and filesystem, i.e. without the drive fetcher or the language-model
call being involved. -/
theorem c7_validation_400 (kvs1 kvs2 : List (String × JVal))
    (h1 : falsy (pyGet kvs1 "file_id") = true)
    (h2 : falsy (pyGet kvs2 "transcript") = true) :
    (∀ (env : TEnv) (fs : FS),
      transcribe_endpoint env (.dict kvs1) fs = (errorResponse 400 "Missing file_id", fs)) ∧
    (∀ env : REnv,
      generate_report_endpoint env (.dict kvs2) = errorResponse 400 "Missing transcript") := by
  constructor
  · intro env fs
    simp only [transcribe_endpoint]
    rw [if_pos h1]
  · intro env
    simp only [generate_report_endpoint]
    rw [if_pos h2]

theorem c7_validation_400_witness :
    (falsy (pyGet [] "file_id") = true) ∧
    (falsy (pyGet [("transcript", JVal.str "")] "transcript") = true) ∧
    transcribe_endpoint (⟨.ok "n", 200, "", "", .ok ""⟩ : TEnv) (.dict []) [] =
      (errorResponse 400 "Missing file_id", []) ∧
    generate_report_endpoint ⟨fun _ => .ok "r"⟩ (.dict [("transcript", JVal.str "")]) =
      errorResponse 400 "Missing transcript" :=
  ⟨by decide, by decide,
   (c7_validation_400 [] [("transcript", JVal.str "")] (by decide) (by decide)).1 _ _,
   (c7_validation_400 [] [("transcript", JVal.str "")] (by decide) (by decide)).2 _⟩

/-- Claim C9: both handlers always return a response (they are total
functions of the request in this model, mirroring the blanket
`try`/`except`), the status code is always 200, 400 or 500, and a body
that fails JSON parsing is answered with 500 (from the catch-all
handler), not 400. -/
theorem c9_endpoints_total (env : TEnv) (renv : REnv) (req : Body) (fs : FS) :
    ((transcribe_endpoint env req fs).1.status = 200 ∨
     (transcribe_endpoint env req fs).1.status = 400 ∨
     (transcribe_endpoint env req fs).1.status = 500) ∧
    ((generate_report_endpoint renv req).status = 200 ∨
     (generate_report_endpoint renv req).status = 400 ∨
     (generate_report_endpoint renv req).status = 500) ∧
    (∀ msg, (transcribe_endpoint env (.malformed msg) fs).1.status = 500) ∧
    (∀ msg, (generate_report_endpoint renv (.malformed msg)).status = 500) := by
  refine ⟨?_, ?_, fun msg => rfl, fun msg => rfl⟩
  · cases req with
    | malformed m => exact Or.inr (Or.inr rfl)
    | nondict m => exact Or.inr (Or.inr rfl)
    | dict kvs =>
      simp only [transcribe_endpoint]
      split
      · exact Or.inr (Or.inl rfl)
      · split
        · exact Or.inr (Or.inr rfl)
        · split
          · exact Or.inr (Or.inr rfl)
          · exact Or.inl rfl
  · cases req with
    | malformed m => exact Or.inr (Or.inr rfl)
    | nondict m => exact Or.inr (Or.inr rfl)
    | dict kvs =>
      simp only [generate_report_endpoint]
      split
      · exact Or.inr (Or.inl rfl)
      · split
        · exact Or.inr (Or.inr rfl)
        · exact Or.inl rfl

/-- Claim C10: a `/generate-report` body carrying `prompt` with JSON null (and
a non-empty transcript) does not fall back to the default prompt:
`data.get` only substitutes the default for a missing key, so the null
reaches the string concatenation on line 85, which raises a `TypeError`
that the catch-all turns into a 500 response - not a 200 and not a
400. -/
theorem c10_null_prompt (env : REnv) (kvs : List (String × JVal)) (t : String)
    (hp : List.lookup "prompt" kvs = some .null)
    (ht : pyGet kvs "transcript" = .str t)
    (ht2 : t ≠ "") :
    generate_llm_report env .null (.str t)
      = .error "TypeError: unsupported operand type for +" ∧
    generate_report_endpoint env (.dict kvs)
      = errorResponse 500 "TypeError: unsupported operand type for +" := by
  constructor
  · rfl
  · simp only [generate_report_endpoint]
    rw [ht]
    rw [if_neg (by simp [falsy, ht2])]
    have hprompt : pyGetD kvs "prompt" (.str defaultPrompt) = .null := by
      unfold pyGetD
      rw [hp]
      rfl
    rw [hprompt]
    rfl

theorem c10_null_prompt_witness :
    (List.lookup "prompt" [("prompt", JVal.null), ("transcript", JVal.str "hi")]
      = some JVal.null) ∧
    (pyGet [("prompt", JVal.null), ("transcript", JVal.str "hi")] "transcript"
      = JVal.str "hi") ∧
    ("hi" ≠ "") ∧
    generate_report_endpoint ⟨fun _ => .ok "r"⟩
        (.dict [("prompt", JVal.null), ("transcript", JVal.str "hi")])
      = errorResponse 500 "TypeError: unsupported operand type for +" :=
  ⟨by decide, by decide, by decide,
   (c10_null_prompt ⟨fun _ => .ok "r"⟩ [("prompt", JVal.null), ("transcript", JVal.str "hi")]
     "hi" (by decide) (by decide) (by decide)).2⟩

/-- Claim C3: the temporary audio file is deleted exactly on the success path.
After a successful download of path `p`: if speech-to-text returns
normally the handler answers 200 and `p` is no longer on disk
(`os.remove` on line 108 ran); if speech-to-text raises, the `except`
block answers 500 and `p` is still on disk - line 108 was never
reached. -/
theorem c3_tempfile_success_only (env : TEnv) (kvs : List (String × JVal))
    (fs : FS) (p : String) (fs1 : FS)
    (hnd : List.Nodup fs)
    (hid : falsy (pyGet kvs "file_id") = false)
    (hdl : download_mp3_from_drive env (pyGet kvs "file_id") fs = .ok (p, fs1)) :
    (∀ t, env.stt = .ok t →
      (transcribe_endpoint env (.dict kvs) fs).1.status = 200 ∧
      p ∉ (transcribe_endpoint env (.dict kvs) fs).2) ∧
    (∀ e, env.stt = .error e →
      (transcribe_endpoint env (.dict kvs) fs).1.status = 500 ∧
      p ∈ (transcribe_endpoint env (.dict kvs) fs).2) := by
  have hfacts : p ∈ fs1 ∧ fs1.Nodup := by
    simp only [download_mp3_from_drive] at hdl
    split at hdl
    · cases hdl
    · split at hdl
      · cases hdl
      · rename_i nm hmn hok
        injection hdl with hpair
        have hp : ("/tmp/" ++ splitextRoot nm ++ ".mp3") = p := congrArg Prod.fst hpair
        have hfs : fsWrite ("/tmp/" ++ splitextRoot nm ++ ".mp3") fs = fs1 :=
          congrArg Prod.snd hpair
        rw [hp] at hfs
        constructor
        · rw [← hfs]
          unfold fsWrite
          split
          · assumption
          · exact List.mem_cons_self _ _
        · rw [← hfs]
          unfold fsWrite
          split
          · exact hnd
          · exact List.nodup_cons.mpr ⟨by assumption, hnd⟩
  refine ⟨fun t hstt => ?_, fun e hstt => ?_⟩
  · have hres : transcribe_endpoint env (.dict kvs) fs
        = (⟨200, [("transcript", .str (pyStripStr (clean_transcript t)))]⟩, fs1.erase p) := by
      simp only [transcribe_endpoint]
      rw [if_neg (by simp [hid]), hdl]
      simp only [transcribe_audio, if_pos hfacts.1]
      rw [hstt]
    rw [hres]
    refine ⟨rfl, fun hc => ?_⟩
    exact ((List.Nodup.mem_erase_iff hfacts.2).mp hc).1 rfl
  · have hres : transcribe_endpoint env (.dict kvs) fs = (errorResponse 500 e, fs1) := by
      simp only [transcribe_endpoint]
      rw [if_neg (by simp [hid]), hdl]
      simp only [transcribe_audio, if_pos hfacts.1]
      rw [hstt]
    rw [hres]
    exact ⟨rfl, hfacts.1⟩

theorem c3_tempfile_witness :
    (List.Nodup ([] : FS)) ∧
    (falsy (pyGet [("file_id", JVal.str "X")] "file_id") = false) ∧
    (download_mp3_from_drive (⟨.ok "rec.mp3", 200, "", "bts", .ok "hello"⟩ : TEnv)
        (pyGet [("file_id", JVal.str "X")] "file_id") []
      = .ok ("/tmp/rec.mp3", ["/tmp/rec.mp3"])) ∧
    ((transcribe_endpoint (⟨.ok "rec.mp3", 200, "", "bts", .ok "hello"⟩ : TEnv)
        (.dict [("file_id", JVal.str "X")]) []).1.status = 200 ∧
     "/tmp/rec.mp3" ∉ (transcribe_endpoint (⟨.ok "rec.mp3", 200, "", "bts", .ok "hello"⟩ : TEnv)
        (.dict [("file_id", JVal.str "X")]) []).2) :=
  ⟨by decide, by decide, by decide,
   (c3_tempfile_success_only (⟨.ok "rec.mp3", 200, "", "bts", .ok "hello"⟩ : TEnv)
     [("file_id", JVal.str "X")] [] "/tmp/rec.mp3" ["/tmp/rec.mp3"]
     (by decide) (by decide) (by decide)).1 "hello" rfl⟩
